import Mathlib

/-!
Verification of the process-handle subsystem of `include/wx/process.h`
(wxProcess and wxProcessEvent).

The header is the only source file present; the inline member functions
(GetPid, Redirect, IsRedirected, the stream getters, CloseOutput,
GetPriority, SetPid, and the whole of wxProcessEvent) are embedded
directly from their bodies.  Member functions whose bodies live in the
implementation file that is not part of the sources (Detach, SetPriority,
IsInputOpened, the launcher binding step, Kill, Exists) are modelled
either from their documented behaviour in the header or, where the header
says nothing, from the specification; each such definition carries a doc
comment saying what was modelled and from where.

Stream objects are modelled by opaque numeric identifiers wrapped in
`Option`: `none` is the C++ null pointer, `some n` a live stream object.
-/

/-- Process creation flag `wxPROCESS_DEFAULT = 0`: no redirection. -/
def wxPROCESS_DEFAULT : Nat := 0

/-- Process creation flag `wxPROCESS_REDIRECT = 1`: redirect the IO of the child process. -/
def wxPROCESS_REDIRECT : Nat := 1

/-- The observable data members of a `wxProcess` object: `m_id`, `m_pid`,
`m_priority`, the three stream pointers (`m_inputStream` corresponds to the
child stdout, `m_errorStream` to its stderr, `m_outputStream` to its stdin,
per the comment in the header), and `m_redirect`. -/
structure wxProcessState where
  m_id : Int
  m_pid : Int
  m_priority : Nat
  m_inputStream : Option Nat
  m_errorStream : Option Nat
  m_outputStream : Option Nat
  m_redirect : Bool
  deriving DecidableEq, Repr

namespace wxProcessState

/-- `long GetPid() const { return m_pid; }` -/
def GetPid (p : wxProcessState) : Int := p.m_pid

/-- `void Redirect() { m_redirect = true; }` -/
def Redirect (p : wxProcessState) : wxProcessState := { p with m_redirect := true }

/-- `bool IsRedirected() const { return m_redirect; }` -/
def IsRedirected (p : wxProcessState) : Bool := p.m_redirect

/-- `wxInputStream *GetInputStream() const { return m_inputStream; }` -/
def GetInputStream (p : wxProcessState) : Option Nat := p.m_inputStream

/-- `wxInputStream *GetErrorStream() const { return m_errorStream; }` -/
def GetErrorStream (p : wxProcessState) : Option Nat := p.m_errorStream

/-- `wxOutputStream *GetOutputStream() const { return m_outputStream; }` -/
def GetOutputStream (p : wxProcessState) : Option Nat := p.m_outputStream

/-- `void CloseOutput() { delete m_outputStream; m_outputStream = nullptr; }` —
the stream object is destroyed and the pointer reset to null. -/
def CloseOutput (p : wxProcessState) : wxProcessState := { p with m_outputStream := none }

/-- Modelled from the header documentation: the body of `IsInputOpened` is not
among the sources, only its declaration, whose comment reads `return true if
the child process stdout is not closed`; together with the member comment
saying `m_inputStream corresponds to stdout`, this is the null test on
`m_inputStream`. -/
def IsInputOpened (p : wxProcessState) : Bool := p.m_inputStream.isSome

/-- `unsigned GetPriority() const { return m_priority; }` -/
def GetPriority (p : wxProcessState) : Nat := p.m_priority

/-- `void SetPid(long pid) { m_pid = pid; }` — an unconditional store. -/
def SetPid (p : wxProcessState) (pid : Int) : wxProcessState := { p with m_pid := pid }

end wxProcessState

/-- Modelled from the spec: the constructor body `Init` is not among the
sources.  Per the spec, `Create(redirect, ...)` yields a fresh handle with no
pid bound yet, no streams, and the redirect flag determined by the
construction flags (`wxPROCESS_REDIRECT`). -/
def Init (nId : Int) (flags : Nat) : wxProcessState :=
  { m_id := nId
    m_pid := 0
    m_priority := 0
    m_inputStream := none
    m_errorStream := none
    m_outputStream := none
    m_redirect := flags &&& wxPROCESS_REDIRECT != 0 }

/-!
Lifecycle layer.  The termination and detachment machinery of wxProcess is
not among the sources (only `Detach` and `OnTerminate` declarations appear in
the header); it is modelled from the spec as a state machine over the handle:
states Created, Running, Terminated, a detached flag, and a record of the
ExitSignal delivered to the notification dispatcher, if any.
-/

/-- Lifecycle states of a handle, from the spec data model. -/
inductive LifeState where
  | Created
  | Running
  | Terminated
  deriving DecidableEq, Repr

/-- ExitSignal, the data-only record `(processId, exitCode)` that is handed
to the notification dispatcher (realised in the sources as a
`wxProcessEvent`). -/
structure ExitSignal where
  processId : Int
  exitCode : Int
  deriving DecidableEq, Repr

/-- A handle together with its modelled lifecycle state: the wxProcess data
members, the lifecycle state, the detached flag, and the ExitSignal delivered
so far (`none` while no notification has been delivered). -/
structure Handle where
  proc : wxProcessState
  state : LifeState
  detached : Bool
  delivered : Option ExitSignal
  deriving DecidableEq, Repr

/-- Error of the launcher binding step, from the spec taxonomy. -/
inductive BindError where
  | AlreadyBoundError
  deriving DecidableEq, Repr

/-- Error of a configuration-window violation, from the spec taxonomy. -/
inductive PriorityError where
  | InvalidStateError
  deriving DecidableEq, Repr

/-- Modelled from the spec: `Detach()` sets `detached = true` idempotently and
does nothing else; the body of `wxProcess::Detach` is not among the sources. -/
def Detach (h : Handle) : Handle := { h with detached := true }

/-- Modelled from the spec: `HandleTermination(exitCode)` — invoked by the
external reaper.  When the handle is Running it removes it from the registry,
sets the state to Terminated, releases the stream resources (the stdin write
side forced closed if still open), and delivers an ExitSignal to the
notification dispatcher exactly when the handle is not detached.  A
termination signal for a handle that is not Running (already removed from the
registry) is silently ignored. -/
def HandleTermination (h : Handle) (exitCode : Int) : Handle :=
  if h.state = LifeState.Running then
    { h with
      state := LifeState.Terminated
      proc := { h.proc with
                m_inputStream := none
                m_errorStream := none
                m_outputStream := none }
      delivered :=
        if h.detached then h.delivered
        else some { processId := h.proc.m_pid, exitCode := exitCode } }
  else h

/-- Modelled from the spec: `BindLaunchResult(processId, ...)` — called once
by the launcher after a successful spawn; not among the sources (the header
only exposes the raw `SetPid` store it uses).  Fails with `AlreadyBoundError`
when called twice (state no longer Created) or when the processId is absent;
otherwise stores the pid and transitions Created to Running. -/
def BindLaunchResult (h : Handle) (pid : Option Int) : Except BindError Handle :=
  match pid with
  | none => Except.error BindError.AlreadyBoundError
  | some p =>
      if h.state = LifeState.Created then
        Except.ok { h with proc := h.proc.SetPid p, state := LifeState.Running }
      else Except.error BindError.AlreadyBoundError

/-- Modelled from the spec: `SetPriority(value)` — the body of
`wxProcess::SetPriority` is not among the sources; the header comment says
the priority can only be set before the process is created, and the spec says
it fails with `InvalidStateError` when the state is not Created. -/
def SetPriority (h : Handle) (v : Nat) : Except PriorityError Handle :=
  if h.state = LifeState.Created then
    Except.ok { h with proc := { h.proc with m_priority := v } }
  else Except.error PriorityError.InvalidStateError

/-- A handle is well formed when a delivered notification implies the state
is Terminated: delivery only ever happens inside `HandleTermination`, which
makes the state Terminated. -/
def WellFormed (h : Handle) : Prop := h.delivered.isSome → h.state = LifeState.Terminated

instance (h : Handle) : Decidable (WellFormed h) := by
  unfold WellFormed; infer_instance

/-!
wxProcessEvent, embedded directly from the header.  The event type constant
`wxEVT_END_PROCESS` is allocated at run time by the event machinery; only its
identity matters, so it is modelled as a fixed numeric tag distinct from 0.
-/

/-- Event type tag standing for the run-time allocated `wxEVT_END_PROCESS`. -/
def wxEVT_END_PROCESS : Nat := 1

/-- Data members of `wxProcessEvent`: the inherited event fields that matter
here (`m_eventType`, the event id) plus `m_pid` and `m_exitcode`. -/
structure wxProcessEvent where
  m_eventType : Nat
  m_id : Int
  m_pid : Int
  m_exitcode : Int
  deriving DecidableEq, Repr

namespace wxProcessEvent

/-- The constructor `wxProcessEvent(int nId = 0, int pid = 0, int exitcode = 0)`:
forwards `nId` to the `wxEvent` base, then sets `m_eventType = wxEVT_END_PROCESS`,
`m_pid = pid`, `m_exitcode = exitcode`. -/
def make (nId pid exitcode : Int) : wxProcessEvent :=
  { m_eventType := wxEVT_END_PROCESS
    m_id := nId
    m_pid := pid
    m_exitcode := exitcode }

/-- `int GetPid() const { return m_pid; }` -/
def GetPid (e : wxProcessEvent) : Int := e.m_pid

/-- `int GetExitCode() const { return m_exitcode; }` -/
def GetExitCode (e : wxProcessEvent) : Int := e.m_exitcode

/-- `wxEvent *Clone() const { return new wxProcessEvent(*this); }` — a copy of
every data member into a fresh object. -/
def Clone (e : wxProcessEvent) : wxProcessEvent :=
  { m_eventType := e.m_eventType
    m_id := e.m_id
    m_pid := e.m_pid
    m_exitcode := e.m_exitcode }

end wxProcessEvent

/-!
Static process-control facility.  The bodies of `wxProcess::Kill` and
`wxProcess::Exists` are not among the sources (only their declarations);
they are modelled from the spec against an abstract view of the external
process-control collaborator.
-/

/-- Abstract state of the external process-control collaborator: which pids
are live, which the caller may signal, which the caller may query, and which
signal kinds the platform supports. -/
structure ProcControl where
  live : Int → Bool
  canSignal : Int → Bool
  canQuery : Int → Bool
  sigOk : Nat → Bool

/-- Result type of `Kill`, from the spec taxonomy. -/
inductive KillResult where
  | Ok
  | NoSuchProcessError
  | AccessDeniedError
  | OperationNotSupportedError
  deriving DecidableEq, Repr

namespace wxProcess

/-- Modelled from the spec: `Kill(pid, signalKind, flags)` delegates to the
process-control collaborator and reports a typed result — `NoSuchProcessError`
when the target is not found, `OperationNotSupportedError` when the signal
kind is unsupported on the platform, `AccessDeniedError` on insufficient
privilege, `Ok` otherwise.  The flags only steer the best-effort delivery to
children and do not change the result classification for the root pid. -/
def Kill (env : ProcControl) (pid : Int) (sig : Nat) (flags : Nat) : KillResult :=
  if !env.live pid then KillResult.NoSuchProcessError
  else if !env.sigOk sig then KillResult.OperationNotSupportedError
  else if !env.canSignal pid then KillResult.AccessDeniedError
  else (fun _ => KillResult.Ok) flags

/-- Modelled from the spec: `Exists(pid)` probes the process-control
collaborator and swallows permission errors into `false`: it returns true
only when the query is permitted and the pid is live. -/
def Exists (env : ProcControl) (pid : Int) : Bool :=
  env.canQuery pid && env.live pid

end wxProcess

/-!
Concrete sample objects used by the witness theorems.
-/

/-- A freshly created handle, not yet bound. -/
def sampleCreated : Handle :=
  { proc := Init 0 wxPROCESS_DEFAULT
    state := LifeState.Created
    detached := false
    delivered := none }

/-- A running handle with pid 3 and live redirected streams, no notification
delivered yet. -/
def sampleRunning : Handle :=
  { proc := { m_id := 0, m_pid := 3, m_priority := 0,
              m_inputStream := some 10, m_errorStream := some 11,
              m_outputStream := some 12, m_redirect := true }
    state := LifeState.Running
    detached := false
    delivered := none }

/-- A terminated handle whose notification `(3, 0)` has been delivered. -/
def sampleTerminated : Handle :=
  { proc := { m_id := 0, m_pid := 3, m_priority := 0,
              m_inputStream := none, m_errorStream := none,
              m_outputStream := none, m_redirect := true }
    state := LifeState.Terminated
    detached := false
    delivered := some { processId := 3, exitCode := 0 } }

/-- The handle reached from `sampleCreated` by binding pid 3. -/
def sampleBound : Handle :=
  { proc := (Init 0 wxPROCESS_DEFAULT).SetPid 3
    state := LifeState.Running
    detached := false
    delivered := none }

/-- A process-control collaborator in which only pid 1 is live and only pid 1
may be queried. -/
def sampleControl : ProcControl :=
  { live := fun p => p == 1
    canSignal := fun _ => true
    canQuery := fun p => p == 1
    sigOk := fun _ => true }




/-!
Claim theorems.
-/

/-- C1: `Detach()` sets the detached flag idempotently; if `Detach()`
completes before `HandleTermination` no notification is delivered for the
handle, and if `HandleTermination` completes first a later `Detach()` leaves
the already-delivered notification unchanged. -/
theorem C1_detach_termination_order (h : Handle) (c : Int)
    (hnd : h.delivered = none) :
    Detach (Detach h) = Detach h ∧
    (HandleTermination (Detach h) c).delivered = none ∧
    (Detach (HandleTermination h c)).delivered = (HandleTermination h c).delivered := by
  refine ⟨rfl, ?_, rfl⟩
  unfold HandleTermination Detach
  by_cases hs : h.state = LifeState.Running <;> simp [hs, hnd]

/-- Witness for C1 at a concrete running handle with no notification yet. -/
theorem C1_witness :
    sampleRunning.delivered = none ∧
    (Detach (Detach sampleRunning) = Detach sampleRunning ∧
     (HandleTermination (Detach sampleRunning) 0).delivered = none ∧
     (Detach (HandleTermination sampleRunning 0)).delivered =
       (HandleTermination sampleRunning 0).delivered) :=
  ⟨rfl, C1_detach_termination_order sampleRunning 0 rfl⟩

/-- C2 as stated is false on the code: `SetPid`, the binding of the
launcher-assigned pid onto the handle, is an unconditional store with no
error channel; a second call silently overwrites the pid bound by the first
(here 5 is overwritten by 7). -/
theorem C2_counterexample :
    (((Init 0 wxPROCESS_DEFAULT).SetPid 5).SetPid 7).GetPid = 7 ∧
    ((Init 0 wxPROCESS_DEFAULT).SetPid 5).GetPid = 5 := by decide

/-- C2 amended: `SetPid` always succeeds and stores the given pid; a second
call silently overwrites the previously bound pid, and `GetPid` then reports
the most recently stored value. -/
theorem C2_setPid_overwrites (p : wxProcessState) (a b : Int) :
    (p.SetPid a).GetPid = a ∧ ((p.SetPid a).SetPid b).GetPid = b :=
  ⟨rfl, rfl⟩

/-- C3 as stated is false on the code: `Redirect()`, invoked after
construction, changes the value `IsRedirected()` reports from false to
true. -/
theorem C3_counterexample :
    (Init 0 wxPROCESS_DEFAULT).IsRedirected = false ∧
    ((Init 0 wxPROCESS_DEFAULT).Redirect).IsRedirected = true := by decide

/-- C3 amended: the redirect flag is initialised from the construction flags
and is changed only by `Redirect()`, which sets it to true and never clears
it; `SetPid`, `CloseOutput`, `Detach` and `HandleTermination` leave it
unchanged. -/
theorem C3_redirect_after_construction (p : wxProcessState) (pid c : Int) (h : Handle) :
    p.Redirect.IsRedirected = true ∧
    (p.SetPid pid).IsRedirected = p.IsRedirected ∧
    p.CloseOutput.IsRedirected = p.IsRedirected ∧
    (Detach h).proc.IsRedirected = h.proc.IsRedirected ∧
    (HandleTermination h c).proc.IsRedirected = h.proc.IsRedirected ∧
    (Init 0 wxPROCESS_DEFAULT).IsRedirected = false ∧
    (Init 0 wxPROCESS_REDIRECT).IsRedirected = true := by
  refine ⟨rfl, rfl, rfl, rfl, ?_, by decide, by decide⟩
  unfold HandleTermination
  by_cases hs : h.state = LifeState.Running <;> simp [hs, wxProcessState.IsRedirected]

/-- C4: `CloseOutput()` is idempotent — a second call yields exactly the same
state as one call (stdin write side closed), and, being total, it raises no
error. -/
theorem C4_closeOutput_idempotent (p : wxProcessState) :
    p.CloseOutput.CloseOutput = p.CloseOutput ∧
    p.CloseOutput.GetOutputStream = none :=
  ⟨rfl, rfl⟩

/-- C5 as stated is false on the code: on a handle whose stdin write side is
open (`GetOutputStream` non-null), `IsInputOpened` is still true immediately
after `CloseOutput()` — per the header, `IsInputOpened` reports the child
stdout stream, not the stdin write side. -/
theorem C5_counterexample :
    sampleRunning.proc.GetOutputStream.isSome = true ∧
    sampleRunning.proc.CloseOutput.IsInputOpened = true := by decide

/-- C5 amended: `IsInputOpened` reports whether the child stdout stream is
open; it is unchanged by `CloseOutput()`, which closes the stdin write side
(`GetOutputStream` becomes null); `IsInputOpened` becomes false through
termination cleanup, which releases the read streams. -/
theorem C5_isInputOpened_stdout (p : wxProcessState) (h : Handle) (c : Int)
    (hr : h.state = LifeState.Running) :
    p.CloseOutput.IsInputOpened = p.IsInputOpened ∧
    p.CloseOutput.GetOutputStream = none ∧
    (HandleTermination h c).proc.IsInputOpened = false := by
  refine ⟨rfl, rfl, ?_⟩
  unfold HandleTermination
  simp [hr, wxProcessState.IsInputOpened]

/-- Witness for C5 at a concrete running handle. -/
theorem C5_witness :
    sampleRunning.state = LifeState.Running ∧
    (sampleRunning.proc.CloseOutput.IsInputOpened = sampleRunning.proc.IsInputOpened ∧
     sampleRunning.proc.CloseOutput.GetOutputStream = none ∧
     (HandleTermination sampleRunning 0).proc.IsInputOpened = false) :=
  ⟨rfl, C5_isInputOpened_stdout sampleRunning.proc sampleRunning 0 rfl⟩

/-- C6: once `BindLaunchResult` has succeeded, `SetPriority` fails with
`InvalidStateError`; before it (state Created) `SetPriority` succeeds, the
stored value is retrievable unchanged via `GetPriority`, is untouched by
`Detach`, and survives into the handle produced by the bind. -/
theorem C6_setPriority_window (h : Handle) (v : Nat) (pid : Int) (h2 : Handle)
    (hc : h.state = LifeState.Created)
    (hb : BindLaunchResult h (some pid) = Except.ok h2) :
    SetPriority h2 v = Except.error PriorityError.InvalidStateError ∧
    ∃ hp, SetPriority h v = Except.ok hp ∧
      hp.proc.GetPriority = v ∧
      (Detach hp).proc.GetPriority = v ∧
      ∀ hq, BindLaunchResult hp (some pid) = Except.ok hq → hq.proc.GetPriority = v := by
  simp only [BindLaunchResult] at hb
  rw [if_pos hc] at hb
  injection hb with hb2
  constructor
  · unfold SetPriority
    rw [← hb2]
    simp
  · refine ⟨{ h with proc := { h.proc with m_priority := v } }, ?_, rfl, rfl, ?_⟩
    · unfold SetPriority
      rw [if_pos hc]
    · intro hq hbq
      simp only [BindLaunchResult] at hbq
      rw [if_pos hc] at hbq
      injection hbq with hbq2
      rw [← hbq2]
      rfl

/-- Witness for C6 at a concrete created handle bound to pid 3. -/
theorem C6_witness :
    sampleCreated.state = LifeState.Created ∧
    BindLaunchResult sampleCreated (some 3) = Except.ok sampleBound ∧
    (SetPriority sampleBound 10 = Except.error PriorityError.InvalidStateError ∧
     ∃ hp, SetPriority sampleCreated 10 = Except.ok hp ∧
       hp.proc.GetPriority = 10 ∧
       (Detach hp).proc.GetPriority = 10 ∧
       ∀ hq, BindLaunchResult hp (some 3) = Except.ok hq → hq.proc.GetPriority = 10) :=
  ⟨rfl, rfl, C6_setPriority_window sampleCreated 10 3 sampleBound rfl rfl⟩

/-- C7: an ExitSignal (realised as a `wxProcessEvent`) is an immutable record
of (processId, exitCode): its accessors return exactly the constructed values
and `Clone` copies them unchanged; and it is delivered at most once per
handle — once a handle carries a delivered signal (which implies it is
Terminated), neither `Detach` nor a further `HandleTermination` changes or
re-delivers it, and a further bind is refused. -/
theorem C7_exitSignal_immutable_once (nId pid ec c : Int) (h : Handle) (s : ExitSignal)
    (hw : WellFormed h) (hd : h.delivered = some s) :
    (wxProcessEvent.make nId pid ec).GetPid = pid ∧
    (wxProcessEvent.make nId pid ec).GetExitCode = ec ∧
    (wxProcessEvent.make nId pid ec).Clone.GetPid = pid ∧
    (wxProcessEvent.make nId pid ec).Clone.GetExitCode = ec ∧
    (Detach h).delivered = some s ∧
    (HandleTermination h c).delivered = some s ∧
    BindLaunchResult h (some pid) = Except.error BindError.AlreadyBoundError := by
  have hterm : h.state = LifeState.Terminated := hw (by simp [hd])
  refine ⟨rfl, rfl, rfl, rfl, hd, ?_, ?_⟩
  · unfold HandleTermination
    simp [hterm, hd]
  · simp only [BindLaunchResult]
    rw [if_neg (by simp [hterm])]

/-- Witness for C7 at a concrete terminated handle with delivered signal
`(3, 0)`. -/
theorem C7_witness :
    WellFormed sampleTerminated ∧
    sampleTerminated.delivered = some { processId := 3, exitCode := 0 } ∧
    ((wxProcessEvent.make 1 3 0).GetPid = 3 ∧
     (wxProcessEvent.make 1 3 0).GetExitCode = 0 ∧
     (wxProcessEvent.make 1 3 0).Clone.GetPid = 3 ∧
     (wxProcessEvent.make 1 3 0).Clone.GetExitCode = 0 ∧
     (Detach sampleTerminated).delivered = some { processId := 3, exitCode := 0 } ∧
     (HandleTermination sampleTerminated 0).delivered = some { processId := 3, exitCode := 0 } ∧
     BindLaunchResult sampleTerminated (some 3) = Except.error BindError.AlreadyBoundError) :=
  ⟨by decide, rfl,
   C7_exitSignal_immutable_once 1 3 0 0 sampleTerminated { processId := 3, exitCode := 0 }
     (by decide) rfl⟩

/-- C8: `Kill` on a pid the process-control collaborator does not know
returns `NoSuchProcessError` (a value of the typed result `KillResult`), and
`Exists` returns false both for a nonexistent pid and for a pid the caller is
not permitted to query. -/
theorem C8_kill_exists_errors (env : ProcControl) (pid pid2 : Int) (sig flags : Nat)
    (hdead : env.live pid = false) (hq : env.canQuery pid2 = false) :
    wxProcess.Kill env pid sig flags = KillResult.NoSuchProcessError ∧
    wxProcess.Exists env pid = false ∧
    wxProcess.Exists env pid2 = false := by
  refine ⟨?_, ?_, ?_⟩
  · unfold wxProcess.Kill
    simp [hdead]
  · unfold wxProcess.Exists
    simp [hdead]
  · unfold wxProcess.Exists
    simp [hq]

/-- Witness for C8: in `sampleControl` only pid 1 is live and queryable, so
pid 5 is nonexistent and pid 2 may not be queried. -/
theorem C8_witness :
    sampleControl.live 5 = false ∧
    sampleControl.canQuery 2 = false ∧
    (wxProcess.Kill sampleControl 5 0 0 = KillResult.NoSuchProcessError ∧
     wxProcess.Exists sampleControl 5 = false ∧
     wxProcess.Exists sampleControl 2 = false) :=
  ⟨by decide, by decide, C8_kill_exists_errors sampleControl 5 2 0 0 (by decide) (by decide)⟩

/-- C9: after `CloseOutput()` the output-stream getter returns null (the
stream object was destroyed and the pointer reset), while the input-stream
and error-stream getters and every other data member of the handle are
unchanged. -/
theorem C9_closeOutput_frame (p : wxProcessState) :
    p.CloseOutput.GetOutputStream = none ∧
    p.CloseOutput.GetInputStream = p.GetInputStream ∧
    p.CloseOutput.GetErrorStream = p.GetErrorStream ∧
    p.CloseOutput.GetPid = p.GetPid ∧
    p.CloseOutput.GetPriority = p.GetPriority ∧
    p.CloseOutput.IsRedirected = p.IsRedirected ∧
    p.CloseOutput.m_id = p.m_id :=
  ⟨rfl, rfl, rfl, rfl, rfl, rfl, rfl⟩

/-- C10: a `wxProcessEvent` constructed from `(id, pid, exitcode)` satisfies
`GetPid() = pid` and `GetExitCode() = exitcode`, its event type is
`wxEVT_END_PROCESS`, and `Clone()` yields an event with the same pid, exit
code and event type. -/
theorem C10_processEvent_ctor_clone (nId pid ec : Int) :
    (wxProcessEvent.make nId pid ec).GetPid = pid ∧
    (wxProcessEvent.make nId pid ec).GetExitCode = ec ∧
    (wxProcessEvent.make nId pid ec).m_eventType = wxEVT_END_PROCESS ∧
    (wxProcessEvent.make nId pid ec).Clone.GetPid = (wxProcessEvent.make nId pid ec).GetPid ∧
    (wxProcessEvent.make nId pid ec).Clone.GetExitCode = (wxProcessEvent.make nId pid ec).GetExitCode ∧
    (wxProcessEvent.make nId pid ec).Clone.m_eventType = (wxProcessEvent.make nId pid ec).m_eventType :=
  ⟨rfl, rfl, rfl, rfl, rfl, rfl⟩
